import Mathlib

/-!
Verification of the gitgo test-orchestration engine (devflow package).
The definitions below are a shallow embedding of the function Go.Test and
its helpers (calculateAverageCoverage, installWasmBrowserTest usage, vet
processing, WASM detection), translated from the Go source. External
process results (command outputs and exit status) are passed in as an
explicit environment record. Numeric parsing and averaging are modelled
exactly over the rationals.
-/

/-- The set of whitespace characters recognised by the Go regexp class
backslash-s: tab, newline, form feed, carriage return, space. -/
def reIsSpace (c : Char) : Bool :=
  c = ' ' || c = '\t' || c = '\n' || c = '\x0c' || c = '\r'

/-- ASCII whitespace as recognised by strings.TrimSpace (unicode.IsSpace),
restricted to the ASCII range, which is all that tool output uses. -/
def goIsSpace (c : Char) : Bool :=
  c = ' ' || c = '\t' || c = '\n' || c = '\x0b' || c = '\x0c' || c = '\r'

/-- strings.TrimSpace on a character list: drop whitespace on both ends. -/
def trimSpace (l : List Char) : List Char :=
  ((l.dropWhile goIsSpace).reverse.dropWhile goIsSpace).reverse

/-- strings.Contains: sub occurs as a contiguous substring of hay. -/
def containsSub : List Char → List Char → Bool
  | [], sub => sub.isEmpty
  | c :: t, sub => sub.isPrefixOf (c :: t) || containsSub t sub

/-- strings.Split(s, newline) on a character list. -/
def splitOnNl : List Char → List (List Char)
  | [] => [[]]
  | c :: cs =>
    let r := splitOnNl cs
    if c = '\n' then [] :: r
    else
      match r with
      | h :: t => (c :: h) :: t
      | [] => [[c]]

/-- A decimal digit, the regexp class backslash-d. -/
def isDigit (c : Char) : Bool := '0' ≤ c && c ≤ '9'

/-- Match the tail of the coverage regexp at the given position: one or
more whitespace characters, then digits with an optional fractional part,
then a percent sign; returns the captured number characters. The greedy
matching is deterministic because the character classes involved are
pairwise disjoint, so no backtracking can succeed where this fails. -/
def matchNumAfter (l : List Char) : Option (List Char) :=
  let ws := l.takeWhile reIsSpace
  let rest := l.dropWhile reIsSpace
  if ws.isEmpty then none
  else
    let ds := rest.takeWhile isDigit
    let rest2 := rest.dropWhile isDigit
    if ds.isEmpty then none
    else
      match rest2 with
      | '.' :: r3 =>
        let fs := r3.takeWhile isDigit
        let r4 := r3.dropWhile isDigit
        if fs.isEmpty then none
        else
          match r4 with
          | '%' :: _ => some (ds ++ '.' :: fs)
          | _ => none
      | '%' :: _ => some ds
      | _ => none

/-- Leftmost match of the Go regexp for coverage lines,
capture group 1: the numeric percentage. -/
def findCoverageNum : List Char → Option (List Char)
  | [] => none
  | c :: cs =>
    if ("coverage:".data).isPrefixOf (c :: cs) then
      match matchNumAfter ((c :: cs).drop 9) with
      | some n => some n
      | none => findCoverageNum cs
    else findCoverageNum cs

/-- Value of a decimal digit string. -/
def digitsToNat (l : List Char) : Nat :=
  l.foldl (fun a c => a * 10 + (c.toNat - '0'.toNat)) 0

/-- strconv.ParseFloat on the captured number, modelled exactly over the
rationals: integer part plus fractional digits scaled by a power of ten. -/
def parseCov (l : List Char) : ℚ :=
  match l.span (fun c => c ≠ '.') with
  | (ip, []) => (digitsToNat ip : ℚ)
  | (ip, _ :: fp) => (digitsToNat ip : ℚ) + (digitsToNat fp : ℚ) / (10 ^ fp.length : ℚ)

/-- Per-line step of calculateAverageCoverage: lines mentioning
"[no test files]" are skipped, otherwise the first regexp match yields the
parsed percentage. -/
def covLineVal (line : List Char) : Option ℚ :=
  if containsSub line ("[no test files]".data) then none
  else
    match findCoverageNum line with
    | some n => some (parseCov n)
    | none => none

/-- The accumulation loop of calculateAverageCoverage: running total and
count over the lines, counting only strictly positive parsed values. -/
def covFold : List (List Char) → ℚ × Nat
  | [] => (0, 0)
  | l :: ls =>
    let r := covFold ls
    match covLineVal l with
    | some v => if v > 0 then (r.1 + v, r.2 + 1) else r
    | none => r

/-- Round a rational to the nearest integer, ties to even: the rounding
fmt uses when formatting a float with zero decimal places. Computed on the
numerator and denominator with floor division so that the kernel can
evaluate it: f is the floor of q and rem its fractional remainder
(q = f + rem / den), and the tie comparison is 2 * rem against den. -/
def roundHalfEven (q : ℚ) : ℤ :=
  let d : ℤ := (q.den : ℤ)
  let f : ℤ := Int.fdiv q.num d
  let rem : ℤ := Int.fmod q.num d
  if 2 * rem < d then f
  else if 2 * rem > d then f + 1
  else if f % 2 = 0 then f else f + 1

/-- Render a rational with zero decimal places. -/
def formatF0 (q : ℚ) : String :=
  toString (roundHalfEven q)

/-- calculateAverageCoverage from the source: average of the strictly
positive matched percentages over lines without "[no test files]",
returning "0" when nothing was counted. -/
def calculateAverageCoverage (output : String) : String :=
  let r := covFold (splitOnNl output.data)
  if r.2 = 0 then "0"
  else formatF0 (r.1 / (r.2 : ℚ))

/-- The addMsg closure in Test: a check or cross glyph, a space, the text. -/
def mkMsg (ok : Bool) (msg : String) : String :=
  (if ok then "✅" else "❌") ++ " " ++ msg

/-- One line of the go list output under GOOS=js GOARCH=wasm qualifies as a
package path: nonempty after trimming and containing neither a colon nor a
space. -/
def wasmLineIsPkg (line : List Char) : Bool :=
  let t := trimSpace line
  !t.isEmpty && !containsSub t [':'] && !containsSub t [' ']

/-- The WASM detection goroutine of Test: the combined go list output is
split on newlines and any qualifying line enables WASM tests. -/
def detectWasmTests (out : String) : Bool :=
  if (trimSpace out.data).isEmpty then false
  else (splitOnNl out.data).any wasmLineIsPkg

/-- The three markers that make a failing go vet count as a pass
(no packages matched at all). -/
def vetNoPkgMarker (out : String) : Bool :=
  containsSub out.data ("matched no packages".data) ||
  containsSub out.data ("no packages to vet".data) ||
  containsSub out.data ("build constraints exclude all Go files".data)

/-- The diagnostic lines of a failing go vet output: blank lines, lines
prefixed with a hash, and the known unsafe.Pointer noise are dropped. -/
def vetFilteredLines (out : String) : List (List Char) :=
  (splitOnNl out.data).filter (fun line =>
    !((trimSpace line).isEmpty || ("#".data).isPrefixOf line) &&
    !containsSub line ("possible misuse of unsafe.Pointer".data))

/-- Vet-result processing of Test: given whether go vet failed and its
output, produce the vet status and the message it appends. -/
def processVet (vetFailed : Bool) (vetOutput : String) : String × List String :=
  if vetFailed then
    if vetNoPkgMarker vetOutput then ("OK", [mkMsg true "vet ok"])
    else if (vetFilteredLines vetOutput).length > 0 then
      ("Issues", [mkMsg false "vet issues found"])
    else ("OK", [mkMsg true "vet ok"])
  else ("OK", [mkMsg true "vet ok"])

/-- Test looks for a per-package ok marker in the go test output. -/
def hasStdOk (out : String) : Bool :=
  containsSub out.data ("\tok\t".data) || containsSub out.data ("ok  \t".data)

/-- Test looks for a per-package FAIL marker in the go test output. -/
def hasStdFail (out : String) : Bool :=
  containsSub out.data ("\tFAIL\t".data) || containsSub out.data ("FAIL  \t".data)

/-- The exclusion markers recognised in a failing go test output. -/
def isExclusionError (out : String) : Bool :=
  containsSub out.data ("matched no packages".data) ||
  containsSub out.data ("build constraints exclude all Go files".data)

/-- Outcome of the primary (stdlib) test phase of Test. -/
structure StdPhase where
  testStatus : String
  raceStatus : String
  enableWasmTests : Bool
  stdTestsRan : Bool
  msgs : List String
deriving DecidableEq, Repr

/-- Primary test-result processing of Test: given whether go test failed,
its output, the module name and the WASM eligibility found by detection,
produce the phase-1 statuses, the possibly forced eligibility, whether
stdlib tests ran, and the messages appended. -/
def processStdTest (testFailed : Bool) (testOutput : String) (moduleName : String)
    (enableWasm0 : Bool) : StdPhase :=
  let ran := hasStdOk testOutput || hasStdFail testOutput
  if testFailed then
    if !ran && isExclusionError testOutput then
      { testStatus := "Passing", raceStatus := "Clean", enableWasmTests := true,
        stdTestsRan := ran, msgs := [] }
    else
      { testStatus := "Failed", raceStatus := "Detected", enableWasmTests := enableWasm0,
        stdTestsRan := ran, msgs := [mkMsg false ("Test errors found in " ++ moduleName)] }
  else
    { testStatus := "Passing", raceStatus := "Clean", enableWasmTests := enableWasm0,
      stdTestsRan := true,
      msgs := [mkMsg true "tests stdlib ok", mkMsg true "race detection ok"] }

/-- Coverage processing of Test: only when stdlib tests ran is the average
computed from the same test output, and a message is appended only when it
differs from "0". The initial value of coveragePercent is "0". -/
def coverageStep (ranFlag : Bool) (testOutput : String) : String × List String :=
  if ranFlag then
    let cp := calculateAverageCoverage testOutput
    if cp ≠ "0" then (cp, [mkMsg true ("coverage: " ++ cp ++ "%")]) else (cp, [])
  else ("0", [])

/-- The WASM phase of Test: parameters are the eligibility after phase 1,
whether installWasmBrowserTest succeeded, whether the WASM go test command
failed and its output, and the incoming test status and coverage percent.
Returns the updated test status, the updated coverage percent and the
appended messages. -/
def wasmPhase (enable installOk wasmFailed : Bool) (wasmOutput : String)
    (testStatus covPct : String) : String × String × List String :=
  if enable then
    if !installOk then (testStatus, covPct, [mkMsg false "WASM tests skipped (setup failed)"])
    else if wasmFailed then ("Failed", covPct, [mkMsg false "tests wasm failed"])
    else
      let ts := if testStatus ≠ "Failed" then "Passing" else testStatus
      let wCov := calculateAverageCoverage wasmOutput
      if wCov ≠ "0" && covPct = "0" then
        (ts, wCov, [mkMsg true "tests wasm ok", mkMsg true ("coverage: " ++ wCov ++ "%")])
      else (ts, covPct, [mkMsg true "tests wasm ok"])
  else (testStatus, covPct, [])

/-- Environment of one Test invocation: the outputs and exit statuses of
the external commands it runs, in the order they occur in the source. -/
structure TestEnv where
  moduleName : String
  vetOutput : String
  vetFailed : Bool
  wasmListOutput : String
  testOutput : String
  testFailed : Bool
  installOk : Bool
  wasmOutput : String
  wasmFailed : Bool
deriving DecidableEq, Repr

/-- The observable outcome of Test: the final status fields, the ordered
message list, the joined summary and the returned error (none on success,
the summary itself on failure). -/
structure TestResult where
  vetStatus : String
  testStatus : String
  raceStatus : String
  coveragePercent : String
  stdTestsRan : Bool
  enableWasmTests : Bool
  msgs : List String
  summary : String
  errMsg : Option String
deriving DecidableEq, Repr

/-- The body of Go.Test after module-name detection, assembled from the
phase functions in source order: WASM detection, vet processing, primary
test processing, coverage, the conditional WASM phase, and the final
aggregation where the error is returned iff the test status is Failed or
the vet status is Issues. -/
def goTest (env : TestEnv) : TestResult :=
  let enableWasm0 := detectWasmTests env.wasmListOutput
  let vet := processVet env.vetFailed env.vetOutput
  let sp := processStdTest env.testFailed env.testOutput env.moduleName enableWasm0
  let cov := coverageStep sp.stdTestsRan env.testOutput
  let w := wasmPhase sp.enableWasmTests env.installOk env.wasmFailed env.wasmOutput
    sp.testStatus cov.1
  let msgs := vet.2 ++ sp.msgs ++ cov.2 ++ w.2.2
  let summary := String.intercalate ", " msgs
  { vetStatus := vet.1, testStatus := w.1, raceStatus := sp.raceStatus,
    coveragePercent := w.2.1, stdTestsRan := sp.stdTestsRan,
    enableWasmTests := sp.enableWasmTests, msgs := msgs, summary := summary,
    errMsg := if w.1 = "Failed" ∨ vet.1 = "Issues" then some summary else none }

/-- The full entry point: when module-name detection fails Test returns
early with an error, otherwise it runs the phases and returns the summary
together with the error of the aggregate. -/
def goTestRun (moduleNameOk : Bool) (env : TestEnv) : String × Option String :=
  if !moduleNameOk then ("", some "error: module name detection failed")
  else ((goTest env).summary, (goTest env).errMsg)

/-- Spec-side reading of claim C2 as written: every per-package coverage
percentage matched in the text, one leftmost match per line, with no
exclusions. -/
def matchedCoverages (output : String) : List ℚ :=
  (splitOnNl output.data).filterMap (fun line => (findCoverageNum line).map parseCov)

/-- The values the source actually averages: per-line matches outside
"[no test files]" lines, restricted to the strictly positive ones. -/
def positiveCoverages (output : String) : List ℚ :=
  ((splitOnNl output.data).filterMap covLineVal).filter (fun v => 0 < v)

/-- Arithmetic mean of a value list rendered with zero decimal places,
with "0" for the empty list. -/
def meanRendered (vals : List ℚ) : String :=
  if vals.length = 0 then "0" else formatF0 (vals.sum / (vals.length : ℚ))

/-- A coverage message as appended by Test: check glyph, space, the word
coverage and a colon. Messages of every other kind start differently. -/
def isCoverageMsg (m : String) : Bool :=
  ("✅ coverage:".data).isPrefixOf m.data

/-- Modelled from the spec: the TestCache component (NewTestCache, SaveCache,
IsCacheValid, GetCachedMessage, InvalidateCache) lives in git_test_cache.go,
which is not among the provided sources; only its unit tests are. Per the spec
the repository state is the current commit plus the uncommitted diff text. -/
structure RepoState where
  commitHash : String
  diffText : String
deriving DecidableEq

/-- Modelled from the spec: diffHash digests the combined textual diff; the
claim under verification needs only that the digest is a deterministic
function of the diff text, so it is modelled as such. -/
def diffDigest (s : String) : String := s

/-- Modelled from the spec: getGitState returns commitHash, a colon, and the
digest of the uncommitted diff. -/
def getGitState (st : RepoState) : String :=
  st.commitHash ++ ":" ++ diffDigest st.diffText

/-- Modelled from the spec: one cache slot holding at most one entry of
fingerprint and message. -/
structure TestCache where
  entry : Option (String × String)
deriving DecidableEq

/-- Modelled from the spec: SaveCache computes the fingerprint of the current
state and overwrites the slot with the fingerprint and the message. -/
def saveCache (st : RepoState) (msg : String) (_c : TestCache) : TestCache :=
  { entry := some (getGitState st, msg) }

/-- Modelled from the spec: IsCacheValid recomputes the fingerprint and is
true iff an entry exists whose stored fingerprint matches it. -/
def isCacheValid (st : RepoState) (c : TestCache) : Bool :=
  match c.entry with
  | some e => e.1 == getGitState st
  | none => false

/-- Modelled from the spec: GetCachedMessage returns the stored summary of
the entry, with the empty string when the slot is empty. -/
def getCachedMessage (c : TestCache) : String :=
  match c.entry with
  | some e => e.2
  | none => ""

/-- Modelled from the spec: InvalidateCache empties the slot. -/
def invalidateCache (_c : TestCache) : TestCache :=
  { entry := none }

/-- The spec example output: two packages at 80.0 and 60.0 percent. -/
def exPair : String := "ok  \tpkg\t0.010s\tcoverage: 80.0% of statements\nok  \tpkg2\t0.020s\tcoverage: 60.0% of statements"

/-- An output with two matches of the coverage pattern, one of them 0.0,
separating a mean over all matches from a mean over positive matches. -/
def exZeroMix : String := "ok  \tpkg\t0.010s\tcoverage: 80.0% of statements\nok  \tpkg2\t0.020s\tcoverage: 0.0% of statements"

/-- An output with one 80.0 percent package and one 0.0 percent package. -/
def exPosZero : String := "ok  \tp\t0.1s\tcoverage: 80.0% of statements\nok  \tq\t0.1s\tcoverage: 0.0% of statements"

/-- The bare exclusion marker as a whole primary-phase output. -/
def exBCE : String := "build constraints exclude all Go files"

/-- An environment where the test command succeeds, its output carries a
coverage match but no per-package ok or FAIL marker. -/
def envNoMarker : TestEnv :=
  { moduleName := "mymod", vetOutput := "", vetFailed := false,
    wasmListOutput := "", testOutput := "coverage: 50.0% of statements",
    testFailed := false, installOk := true, wasmOutput := "", wasmFailed := false }

/-- An environment whose test output has no coverage match at all. -/
def envQuiet : TestEnv :=
  { moduleName := "mymod", vetOutput := "", vetFailed := false,
    wasmListOutput := "", testOutput := "?   \tmymod\t[no test files]",
    testFailed := false, installOk := true, wasmOutput := "", wasmFailed := false }

/-- An environment where WASM tests are eligible but the shim install
fails, while vet and the primary phase pass. -/
def envNoShim : TestEnv :=
  { moduleName := "mymod", vetOutput := "", vetFailed := false,
    wasmListOutput := "mymod/wasmpkg", testOutput := "ok  \tmymod\t0.1s",
    testFailed := false, installOk := false, wasmOutput := "", wasmFailed := false }

/-- An environment where vet and the primary phase pass but the WASM test
command fails after a successful shim setup. -/
def envWasmFail : TestEnv :=
  { moduleName := "mymod", vetOutput := "", vetFailed := false,
    wasmListOutput := "mymod/wasmpkg", testOutput := "ok  \tmymod\t0.1s",
    testFailed := false, installOk := true, wasmOutput := "FAIL\tmymod/wasmpkg\t0.1s",
    wasmFailed := true }

/-- The accumulator of calculateAverageCoverage equals the sum and the
count of the strictly positive per-line values. -/
theorem covFold_eq_filter (ls : List (List Char)) :
    covFold ls = (((ls.filterMap covLineVal).filter (fun v => 0 < v)).sum,
                  ((ls.filterMap covLineVal).filter (fun v => 0 < v)).length) := by
  induction ls with
  | nil => simp [covFold]
  | cons l ls ih =>
    simp only [covFold, List.filterMap_cons]
    cases h : covLineVal l with
    | none => simpa using ih
    | some v =>
      by_cases hv : 0 < v
      · simp [List.filter_cons, hv, ih, add_comm]
      · simp [List.filter_cons, hv, ih]

/-- calculateAverageCoverage renders the mean of the positive matches. -/
theorem calcAvg_eq_mean_positive (output : String) :
    calculateAverageCoverage output = meanRendered (positiveCoverages output) := by
  simp only [calculateAverageCoverage, covFold_eq_filter, meanRendered, positiveCoverages]

/-- C2 counterexample: on an output whose matched percentages are 80.0 and
0.0 the source aggregates to "80", while the arithmetic mean of the
matched percentages rendered with zero decimal places is "40"; matched
zero values are excluded from the average, so the claim as stated fails. -/
theorem calcAvg_counterexample :
    calculateAverageCoverage exZeroMix = "80"
    ∧ meanRendered (matchedCoverages exZeroMix) = "40"
    ∧ ("80" : String) ≠ "40" :=
  ⟨by with_unfolding_all decide, by with_unfolding_all decide, by decide⟩

/-- C2 (amended): for every test-run output the aggregate coverage is the
arithmetic mean of the strictly positive coverage percentages matched on
lines not mentioning "[no test files]", rendered with zero decimal
places; the output with the 80.0 and 60.0 percent packages aggregates to
the string "70". -/
theorem calcAvg_c2amended (output : String) :
    calculateAverageCoverage output = meanRendered (positiveCoverages output)
    ∧ calculateAverageCoverage exPair = "70" :=
  ⟨calcAvg_eq_mean_positive output, by with_unfolding_all decide⟩

/-- C9: only strictly positive matched percentages contribute to the
average (the accumulator is exactly the sum and count of the positive
values), a line containing "[no test files]" is excluded even when it
matches the coverage pattern, and an output with one 80.0 percent package
and one 0.0 percent package aggregates to "80" rather than "40". -/
theorem coverage_counts_only_positive :
    (∀ ls : List (List Char),
      covFold ls = (((ls.filterMap covLineVal).filter (fun v => 0 < v)).sum,
                    ((ls.filterMap covLineVal).filter (fun v => 0 < v)).length))
    ∧ covLineVal ("ok  \tr\tcoverage: 30.0% of statements [no test files]".data) = none
    ∧ calculateAverageCoverage exPosZero = "80" :=
  ⟨covFold_eq_filter, by with_unfolding_all decide, by with_unfolding_all decide⟩

/-- C1: with module-name detection succeeding, Test returns the joined
summary, and an error iff the test status is Failed or the vet status is
Issues; the error, when present, carries the summary itself, and in every
other case the summary is returned with no error. -/
theorem goTest_error_iff_failed_or_issues (env : TestEnv) :
    goTestRun true env
      = ((goTest env).summary,
         if (goTest env).testStatus = "Failed" ∨ (goTest env).vetStatus = "Issues"
         then some (goTest env).summary else none) := rfl

/-- C3: a failing primary-phase output containing the build-constraints
exclusion marker and no ok or FAIL package marker is treated as a pass
(testStatus Passing, raceStatus Clean) and forces WASM eligibility true,
whatever the Phase-0 detection found. -/
theorem exclusion_output_forces_wasm (out m : String) (e0 : Bool)
    (hmark : containsSub out.data ("build constraints exclude all Go files".data) = true)
    (hok : hasStdOk out = false) (hfail : hasStdFail out = false) :
    processStdTest true out m e0
      = { testStatus := "Passing", raceStatus := "Clean", enableWasmTests := true,
          stdTestsRan := false, msgs := [] } := by
  simp [processStdTest, hok, hfail, isExclusionError, hmark]

/-- Witness for C3 at the concrete exclusion output with detection off. -/
theorem exclusion_output_forces_wasm_witness :
    (containsSub exBCE.data ("build constraints exclude all Go files".data) = true
      ∧ hasStdOk exBCE = false ∧ hasStdFail exBCE = false)
    ∧ processStdTest true exBCE "mymod" false
      = { testStatus := "Passing", raceStatus := "Clean", enableWasmTests := true,
          stdTestsRan := false, msgs := [] } :=
  ⟨⟨by decide, by decide, by decide⟩,
   exclusion_output_forces_wasm exBCE "mymod" false (by decide) (by decide) (by decide)⟩

/-- C6: a failing vet command yields status OK exactly when the output
carries one of the three no-packages markers or no diagnostic line
survives the filtering of blank lines, hash-prefixed lines and the
unsafe.Pointer noise; otherwise it yields Issues. -/
theorem processVet_ok_iff_marker_or_no_diagnostics (out : String) :
    processVet true out
      = (if vetNoPkgMarker out = true ∨ vetFilteredLines out = []
         then ("OK", [mkMsg true "vet ok"])
         else ("Issues", [mkMsg false "vet issues found"])) := by
  by_cases h1 : vetNoPkgMarker out = true
  · simp [processVet, h1]
  · by_cases h2 : vetFilteredLines out = []
    · simp [processVet, h1, h2]
    · have : (vetFilteredLines out).length > 0 := List.length_pos.mpr h2
      simp [processVet, h1, h2, this]

/-- A message built with the cross glyph is never a coverage message. -/
theorem isCovMsg_cross (s : String) : isCoverageMsg (mkMsg false s) = false := by
  have h1 : (mkMsg false s).data = '❌' :: ' ' :: s.data := by
    simp [mkMsg, String.data_append]
  simp [isCoverageMsg, h1, List.isPrefixOf]

/-- A line with no match of the coverage pattern contributes no value. -/
theorem covLineVal_none_of_noMatch (line : List Char) (h : findCoverageNum line = none) :
    covLineVal line = none := by
  simp [covLineVal, h]

/-- With no match of the coverage pattern anywhere, the average is "0". -/
theorem calcAvg_of_matched_nil (out : String) (h : matchedCoverages out = []) :
    calculateAverageCoverage out = "0" := by
  have hall : ∀ line ∈ splitOnNl out.data, covLineVal line = none := by
    intro line hl
    have hm := (List.filterMap_eq_nil_iff.mp h) line hl
    have h2 : findCoverageNum line = none := by
      cases hf : findCoverageNum line with
      | none => rfl
      | some n => rw [hf] at hm; simp at hm
    exact covLineVal_none_of_noMatch line h2
  have hnil : (splitOnNl out.data).filterMap covLineVal = [] := List.filterMap_eq_nil_iff.mpr hall
  simp [calculateAverageCoverage, covFold_eq_filter, hnil]

/-- When the average is "0" the coverage step emits no message. -/
theorem coverageStep_of_zero (b : Bool) (out : String)
    (h : calculateAverageCoverage out = "0") : coverageStep b out = ("0", []) := by
  cases b <;> simp [coverageStep, h]

/-- stdTestsRan after phase 1 is exactly: a package marker appeared or the
test command succeeded. -/
theorem stdTestsRan_characterisation (tf : Bool) (out name : String) (e0 : Bool) :
    (processStdTest tf out name e0).stdTestsRan
      = (hasStdOk out || hasStdFail out || !tf) := by
  cases tf
  · simp [processStdTest]
  · simp only [processStdTest]
    split_ifs <;> simp

/-- Vet messages are never coverage messages. -/
theorem vet_msgs_not_cov (b : Bool) (out : String) :
    ∀ m ∈ (processVet b out).2, isCoverageMsg m = false := by
  intro m hm
  simp only [processVet] at hm
  split_ifs at hm <;> simp at hm <;> subst hm <;> decide

/-- Phase-1 messages are never coverage messages. -/
theorem std_msgs_not_cov (tf : Bool) (out name : String) (e0 : Bool) :
    ∀ m ∈ (processStdTest tf out name e0).msgs, isCoverageMsg m = false := by
  intro m hm
  simp only [processStdTest] at hm
  split_ifs at hm <;> simp at hm
  · subst hm; exact isCovMsg_cross _
  · rcases hm with hm | hm <;> subst hm <;> decide

/-- With zero WASM coverage the WASM phase keeps the percent at "0" and
appends no coverage message. -/
theorem wasmPhase_no_cov (e i wf : Bool) (wout ts : String)
    (h : calculateAverageCoverage wout = "0") :
    (wasmPhase e i wf wout ts "0").2.1 = "0"
    ∧ ∀ m ∈ (wasmPhase e i wf wout ts "0").2.2, isCoverageMsg m = false := by
  have c1 : isCoverageMsg (mkMsg true "tests wasm ok") = false := by decide
  cases e <;> cases i <;> cases wf <;>
    simp [wasmPhase, h, isCovMsg_cross, c1]

/-- C4 (amended): an output with zero matches of the coverage pattern
aggregates to "0", and when neither test output carries a match the final
coverage percent is "0" and no coverage message appears in the summary;
moreover coverage is computed exactly when a package marker appeared or
the primary test command succeeded. -/
theorem zero_matches_yield_zero (env : TestEnv)
    (h1 : matchedCoverages env.testOutput = [])
    (h2 : matchedCoverages env.wasmOutput = []) :
    calculateAverageCoverage env.testOutput = "0"
    ∧ (goTest env).coveragePercent = "0"
    ∧ (goTest env).msgs.all (fun m => !(isCoverageMsg m)) = true
    ∧ (goTest env).stdTestsRan
        = (hasStdOk env.testOutput || hasStdFail env.testOutput || !env.testFailed) := by
  have hz1 := calcAvg_of_matched_nil _ h1
  have hz2 := calcAvg_of_matched_nil _ h2
  have hcov := coverageStep_of_zero
    (processStdTest env.testFailed env.testOutput env.moduleName
      (detectWasmTests env.wasmListOutput)).stdTestsRan env.testOutput hz1
  have hw := wasmPhase_no_cov
    (processStdTest env.testFailed env.testOutput env.moduleName
      (detectWasmTests env.wasmListOutput)).enableWasmTests env.installOk env.wasmFailed
    env.wasmOutput
    (processStdTest env.testFailed env.testOutput env.moduleName
      (detectWasmTests env.wasmListOutput)).testStatus hz2
  refine ⟨hz1, ?_, ?_, ?_⟩
  · simp only [goTest, hcov]
    exact hw.1
  · simp only [goTest, hcov, List.all_eq_true, List.append_nil, List.mem_append]
    intro m hm
    rcases hm with (hm | hm) | hm
    · simp [vet_msgs_not_cov _ _ m hm]
    · simp [std_msgs_not_cov _ _ _ _ m hm]
    · simp [hw.2 m hm]
  · simp only [goTest]
    exact stdTestsRan_characterisation _ _ _ _

/-- Witness for the amended C4 at an output whose only line reports no
test files. -/
theorem zero_matches_yield_zero_witness :
    (matchedCoverages envQuiet.testOutput = [] ∧ matchedCoverages envQuiet.wasmOutput = [])
    ∧ (calculateAverageCoverage envQuiet.testOutput = "0"
       ∧ (goTest envQuiet).coveragePercent = "0"
       ∧ (goTest envQuiet).msgs.all (fun m => !(isCoverageMsg m)) = true
       ∧ (goTest envQuiet).stdTestsRan
           = (hasStdOk envQuiet.testOutput || hasStdFail envQuiet.testOutput
              || !envQuiet.testFailed)) :=
  ⟨⟨by with_unfolding_all decide, by with_unfolding_all decide⟩,
   zero_matches_yield_zero envQuiet (by with_unfolding_all decide) (by with_unfolding_all decide)⟩

/-- C4 counterexample: when the test command succeeds, coverage is
computed even though no ok or FAIL package marker appeared — the output
with a bare coverage line yields percent "50" and a coverage message, so
the claim that coverage is computed only when a package marker appeared
fails. -/
theorem coverage_without_package_marker :
    hasStdOk envNoMarker.testOutput = false
    ∧ hasStdFail envNoMarker.testOutput = false
    ∧ (goTest envNoMarker).coveragePercent = "50"
    ∧ mkMsg true "coverage: 50%" ∈ (goTest envNoMarker).msgs :=
  ⟨by decide, by decide, by with_unfolding_all decide, by with_unfolding_all decide⟩

/-- C7: when the WASM phase is eligible after phase 1 but the shim install
fails, a skip message is appended, the test status keeps its phase-1 value
(not set to Failed by this condition), and with vet OK and phase 1 passing
the entry point returns no error. -/
theorem wasm_setup_failure_degrades (env : TestEnv)
    (helig : (processStdTest env.testFailed env.testOutput env.moduleName
        (detectWasmTests env.wasmListOutput)).enableWasmTests = true)
    (hinst : env.installOk = false)
    (hts : (processStdTest env.testFailed env.testOutput env.moduleName
        (detectWasmTests env.wasmListOutput)).testStatus = "Passing")
    (hvet : (processVet env.vetFailed env.vetOutput).1 = "OK") :
    (goTest env).errMsg = none
    ∧ mkMsg false "WASM tests skipped (setup failed)" ∈ (goTest env).msgs
    ∧ (goTest env).testStatus = "Passing" := by
  simp [goTest, helig, hinst, hts, hvet, wasmPhase]

/-- Witness for C7 at a concrete passing environment without a shim. -/
theorem wasm_setup_failure_degrades_witness :
    ((processStdTest envNoShim.testFailed envNoShim.testOutput envNoShim.moduleName
        (detectWasmTests envNoShim.wasmListOutput)).enableWasmTests = true
      ∧ envNoShim.installOk = false
      ∧ (processStdTest envNoShim.testFailed envNoShim.testOutput envNoShim.moduleName
          (detectWasmTests envNoShim.wasmListOutput)).testStatus = "Passing"
      ∧ (processVet envNoShim.vetFailed envNoShim.vetOutput).1 = "OK")
    ∧ ((goTest envNoShim).errMsg = none
       ∧ mkMsg false "WASM tests skipped (setup failed)" ∈ (goTest envNoShim).msgs
       ∧ (goTest envNoShim).testStatus = "Passing") :=
  ⟨⟨by decide, by decide, by decide, by decide⟩,
   wasm_setup_failure_degrades envNoShim (by decide) (by decide) (by decide) (by decide)⟩

/-- C10: when the WASM phase is eligible, the shim setup succeeds and the
WASM test command fails, the test status becomes Failed and the entry
point returns the summary as an error, independent of vet and the primary
phase. -/
theorem wasm_failure_flips_top_level (env : TestEnv)
    (helig : (processStdTest env.testFailed env.testOutput env.moduleName
        (detectWasmTests env.wasmListOutput)).enableWasmTests = true)
    (hinst : env.installOk = true)
    (hwf : env.wasmFailed = true) :
    (goTest env).testStatus = "Failed"
    ∧ (goTest env).errMsg = some (goTest env).summary := by
  simp [goTest, helig, hinst, hwf, wasmPhase]

/-- Witness for C10 at a concrete environment where vet and the primary
phase pass and only the WASM command fails. -/
theorem wasm_failure_flips_top_level_witness :
    ((processStdTest envWasmFail.testFailed envWasmFail.testOutput envWasmFail.moduleName
        (detectWasmTests envWasmFail.wasmListOutput)).enableWasmTests = true
      ∧ envWasmFail.installOk = true ∧ envWasmFail.wasmFailed = true
      ∧ envWasmFail.testFailed = false
      ∧ (processVet envWasmFail.vetFailed envWasmFail.vetOutput).1 = "OK")
    ∧ ((goTest envWasmFail).testStatus = "Failed"
       ∧ (goTest envWasmFail).errMsg = some (goTest envWasmFail).summary) :=
  ⟨⟨by decide, by decide, by decide, by decide, by decide⟩,
   wasm_failure_flips_top_level envWasmFail (by decide) (by decide) (by decide)⟩

/-- C5: saving a message for the current repository state makes the cache
valid on that unchanged state with exactly that message retrievable, and
invalidation always makes a subsequent validity check return false. -/
theorem cache_save_valid_and_invalidate (st : RepoState) (msg : String) (c c2 : TestCache) :
    isCacheValid st (saveCache st msg c) = true
    ∧ getCachedMessage (saveCache st msg c) = msg
    ∧ isCacheValid st (invalidateCache c2) = false := by
  refine ⟨?_, rfl, rfl⟩
  simp [isCacheValid, saveCache]
